import Mathlib

/-!
Shallow embedding of the location-acquisition and accuracy-assessment core of
`src/api.js` (the `geolocationAPI` object). JavaScript numbers are modelled as
exact rationals (`ℚ`); JavaScript `null` as `Option.none`; a settled promise as
an `Except` value; the asynchronous platform primitive
`navigator.geolocation.getCurrentPosition` as an oracle list of outcomes that
is consumed one query at a time. All functions below are total, which models
the fact that the embedded JavaScript never throws synchronously on the
modelled paths.
-/

instance {α β : Type} [DecidableEq α] [DecidableEq β] : DecidableEq (Except α β) := fun
  | Except.ok a, Except.ok b =>
      if h : a = b then isTrue (by rw [h]) else isFalse (by intro hc; cases hc; exact h rfl)
  | Except.ok _, Except.error _ => isFalse (by intro hc; cases hc)
  | Except.error _, Except.ok _ => isFalse (by intro hc; cases hc)
  | Except.error a, Except.error b =>
      if h : a = b then isTrue (by rw [h]) else isFalse (by intro hc; cases hc; exact h rfl)

/-- The `coords` member of a platform `GeolocationPosition`
(fields read by `api.js`). `null`-able fields are `Option`s. -/
structure Coords where
  latitude : ℚ
  longitude : ℚ
  accuracy : ℚ
  altitude : Option ℚ
  altitudeAccuracy : Option ℚ
  heading : Option ℚ
  speed : Option ℚ
deriving DecidableEq

/-- A platform `GeolocationPosition`: coordinates plus capture timestamp. -/
structure Position where
  coords : Coords
  timestamp : ℤ
deriving DecidableEq

/-- Models JavaScript `Number.prototype.toFixed(1)` on the exact-rational
idealization of JS numbers: round to the nearest tenth, ties upward (the
ECMAScript spec picks the larger candidate on a tie), and render with one
digit after the decimal point. -/
def toFixed1 (q : ℚ) : String :=
  let n : ℤ := round (q * 10)
  (if n < 0 then "-" else "") ++ toString (n.natAbs / 10) ++ "." ++ toString (n.natAbs % 10)

/-- The analysis object built by `geolocationAPI.analyzeLocationAccuracy`
(src/api.js lines 292-309). -/
structure Analysis where
  accuracy : ℚ
  accuracyLevel : String
  recommendations : List String
  warnings : List String
  info : List String
deriving DecidableEq

/-- `geolocationAPI.analyzeLocationAccuracy` (src/api.js lines 285-385).
The ambient read of `window.location.protocol` is made an explicit
`protocol` argument. Message pushes are modelled by list concatenation in
the source's push order: the accuracy if/else-if chain first, then the
altitude check, the speed and heading checks, the environment
recommendations, and finally the HTTPS check. -/
def analyzeLocationAccuracy (protocol : String) (position : Position) : Analysis :=
  let accuracy := position.coords.accuracy
  let altitude := position.coords.altitude
  let altitudeAccuracy := position.coords.altitudeAccuracy
  let speed := position.coords.speed
  let heading := position.coords.heading
  let accuracyLevel : String :=
    if accuracy < 5 then "Excellent"
    else if accuracy < 10 then "Very High"
    else if accuracy < 20 then "High"
    else if accuracy < 50 then "Medium"
    else if accuracy < 100 then "Low"
    else "Very Low"
  let accMsgs : List String × List String × List String :=
    if accuracy > 100 then
      (["Location accuracy is very poor (>100m). This might be network-based location."],
       [],
       ["Try moving outdoors with clear sky view for better GPS accuracy."])
    else if accuracy > 50 then
      (["Location accuracy is low (50-100m). GPS signal might be weak."],
       [],
       ["Move to an open area or near a window for better GPS reception."])
    else if accuracy > 20 then
      ([],
       ["Location accuracy is moderate (20-50m). GPS is working but could be better."],
       ["Wait a few moments for GPS to settle, or move to a more open area."])
    else if accuracy > 10 then
      ([], ["Location accuracy is good (10-20m). GPS is working well."], [])
    else
      ([], ["Location accuracy is excellent (<10m). GPS is working optimally."], [])
  let altWarnings : List String :=
    match altitude, altitudeAccuracy with
    | some _, some aa =>
        if aa > 50 then ["Altitude accuracy is poor. This is normal for GPS."] else []
    | _, _ => []
  let speedInfo : List String :=
    match speed with
    | some v => if v > 0 then ["Device is moving at " ++ toFixed1 (v * 3.6) ++ " km/h"] else []
    | none => []
  let headingInfo : List String :=
    match heading with
    | some h => ["Device heading: " ++ toFixed1 h ++ "Â°"]
    | none => []
  let envRecs : List String :=
    if accuracy > 20 then
      ["Consider enabling WiFi and mobile networks for assisted GPS.",
       "Make sure location services are set to \"High Accuracy\" mode."]
    else []
  let httpsWarnings : List String :=
    if protocol ≠ "https:" then
      ["Not using HTTPS. Some browsers limit geolocation accuracy on HTTP."]
    else []
  let httpsRecs : List String :=
    if protocol ≠ "https:" then ["Use HTTPS for maximum geolocation accuracy."] else []
  { accuracy := accuracy
    accuracyLevel := accuracyLevel
    recommendations := accMsgs.2.2 ++ envRecs ++ httpsRecs
    warnings := accMsgs.1 ++ altWarnings ++ httpsWarnings
    info := accMsgs.2.1 ++ speedInfo ++ headingInfo }

/-- Tier assignment exactly as the specification words it: disjoint ranges
with exclusive upper bounds, smaller accuracy better (spec section 4.2).
Stated with explicit two-sided range conditions so that agreement with the
source's cascaded strict-less-than chain is a real refinement statement. -/
def specTierName (a : ℚ) : String :=
  if a < 5 then "Excellent"
  else if 5 ≤ a ∧ a < 10 then "Very High"
  else if 10 ≤ a ∧ a < 20 then "High"
  else if 20 ≤ a ∧ a < 50 then "Medium"
  else if 50 ≤ a ∧ a < 100 then "Low"
  else "Very Low"

/-- Spec-side notion of a secure transport (spec glossary): an
encrypted-transport origin or a local loopback origin. The hostname test is
the one `checkGeolocationSupport` uses (src/api.js lines 67-71). -/
def isSecureTransport (protocol hostname : String) : Bool :=
  protocol = "https:" || hostname = "localhost" || hostname = "127.0.0.1"

/-- `geolocationAPI.checkGeolocationSupport` (src/api.js lines 59-82), with
the ambient `navigator`/`window.location` reads made explicit arguments.
`Except.error` carries the rejection message. -/
def checkGeolocationSupport (hasGeolocation : Bool) (protocol hostname : String) :
    Except String Unit :=
  if hasGeolocation = false then
    Except.error "Geolocation is not supported by this browser"
  else if protocol ≠ "https:" ∧ hostname ≠ "localhost" ∧ hostname ≠ "127.0.0.1" then
    Except.error "Geolocation requires HTTPS or localhost. Please use HTTPS or run on localhost."
  else
    Except.ok ()

/-- The raw platform `GeolocationPositionError` object: a numeric `code`
(`PERMISSION_DENIED = 1`, `POSITION_UNAVAILABLE = 2`, `TIMEOUT = 3`) and the
platform message. -/
structure PositionError where
  code : ℤ
  message : String
deriving DecidableEq

/-- The fixed user-facing message chosen by the error callback of
`geolocationAPI.requestLocationPermission` (src/api.js lines 125-146): a
switch on `error.code` against the platform constants, with a default arm. -/
def requestErrorMessage (code : ℤ) : String :=
  if code = 1 then
    "Location access denied. Please click \x27Allow\x27 when prompted, or enable location services in your browser settings."
  else if code = 2 then
    "Location information is unavailable. Please check your GPS settings and ensure location services are enabled."
  else if code = 3 then
    "Location request timed out. Please try again."
  else
    "An unknown error occurred while retrieving location."

/-- The fixed user-facing message chosen by the error callback of
`geolocationAPI.watchPosition` (src/api.js lines 248-268). -/
def watchErrorMessage (code : ℤ) : String :=
  if code = 1 then
    "Location access denied. Please enable location services."
  else if code = 2 then
    "Location information is unavailable. Please check your GPS settings."
  else if code = 3 then
    "Location request timed out."
  else
    "An unknown error occurred while tracking location."

/-- The plain location record that `requestLocationPermission` and
`watchPosition` hand to their success callbacks (src/api.js lines 96-108 and
237-246); the two debugging duplicates `coords`/`rawPosition` carry the same
position and are not repeated here. -/
structure LocationData where
  lat : ℚ
  lng : ℚ
  accuracy : ℚ
  altitude : Option ℚ
  altitudeAccuracy : Option ℚ
  heading : Option ℚ
  speed : Option ℚ
  timestamp : ℤ
deriving DecidableEq

/-- The field-by-field copy both success callbacks perform. -/
def locationDataOf (position : Position) : LocationData :=
  { lat := position.coords.latitude
    lng := position.coords.longitude
    accuracy := position.coords.accuracy
    altitude := position.coords.altitude
    altitudeAccuracy := position.coords.altitudeAccuracy
    heading := position.coords.heading
    speed := position.coords.speed
    timestamp := position.timestamp }

/-- `geolocationAPI.requestLocationPermission` (src/api.js lines 85-154) as a
function of the ambient capability flag and of the platform outcome of the
single query it issues: the returned promise resolves with the copied
location data, or rejects with `new Error(message)` where the message is the
fixed per-kind text. -/
def requestLocationPermission (hasGeolocation : Bool)
    (outcome : Except PositionError Position) : Except String LocationData :=
  if hasGeolocation = false then
    Except.error "Geolocation is not supported by this browser"
  else
    match outcome with
    | Except.ok position => Except.ok (locationDataOf position)
    | Except.error e => Except.error (requestErrorMessage e.code)

/-- An event the platform delivers to a live watch subscription. -/
inductive WatchEvent
  | position (p : Position)
  | failure (e : PositionError)
deriving DecidableEq

/-- What the two callbacks registered by `geolocationAPI.watchPosition`
(src/api.js lines 229-274) pass on for each delivered platform event:
the success callback forwards the copied location data, the error callback
forwards `new Error(message)` with the fixed per-kind watch message. -/
def watchCallbackOutput (event : WatchEvent) : Except String LocationData :=
  match event with
  | WatchEvent.position p => Except.ok (locationDataOf p)
  | WatchEvent.failure e => Except.error (watchErrorMessage e.code)

/-- The `navigator.geolocation` watch-registration state: capability
presence, the identifiers of the currently active subscriptions, and the
next identifier to hand out. Browsers hand out positive identifiers, so
`nextId` starts at 1 (see `initState`). -/
structure Navigator where
  hasGeolocation : Bool
  subs : List ℕ
  nextId : ℕ
deriving DecidableEq

/-- JavaScript truthiness of the `watchId` values that occur in `api.js`:
`null` and `0` are falsy, any other number truthy. -/
def jsTruthy : Option ℕ → Bool
  | none => false
  | some i => i ≠ 0

/-- `geolocationAPI.watchPosition` (src/api.js lines 223-275) at
registration time: with the capability absent it invokes `errorCallback`
once (the returned list of error messages) and returns `null`; otherwise it
registers a platform subscription and returns its handle, invoking no
callback synchronously. Result: (platform after, returned handle, error
messages delivered synchronously). -/
def watchPosition (nav : Navigator) : Navigator × Option ℕ × List String :=
  if nav.hasGeolocation = false then
    (nav, none, ["Geolocation is not supported by this browser"])
  else
    ({ nav with subs := nav.nextId :: nav.subs, nextId := nav.nextId + 1 },
     some nav.nextId, [])

/-- `geolocationAPI.clearWatch` (src/api.js lines 278-282): `if (watchId)`
guards the platform call; the platform `clearWatch` cancels the subscription
with that identifier and ignores unknown identifiers. -/
def clearWatch (watchId : Option ℕ) (subs : List ℕ) : List ℕ :=
  if jsTruthy watchId then subs.filter (fun j => decide (some j ≠ watchId)) else subs

/-- The tracking-session state held by the `MapView` component: the stored
`watchId`, the `isTracking` flag, and the platform registration state. -/
structure MapViewState where
  watchId : Option ℕ
  isTracking : Bool
  nav : Navigator
deriving DecidableEq

/-- `startAutoTracking` (src/api.js lines 673-708): `if (watchId) return;`
otherwise it calls `geolocationAPI.watchPosition`, stores the returned
handle and sets `isTracking`. The second component is the JavaScript return
value of the arrow function, which is `undefined` (`none`) on every path. -/
def startAutoTracking (s : MapViewState) : MapViewState × Option ℕ :=
  if jsTruthy s.watchId then (s, none)
  else
    let r := watchPosition s.nav
    ({ watchId := r.2.1, isTracking := true, nav := r.1 }, none)

/-- `stopAutoTracking` (src/api.js lines 710-717): `if (watchId)` guards
`clearWatch`, clearing the stored handle and the flag. -/
def stopAutoTracking (s : MapViewState) : MapViewState :=
  if jsTruthy s.watchId then
    { watchId := none, isTracking := false,
      nav := { s.nav with subs := clearWatch s.watchId s.nav.subs } }
  else s

/-- A caller-issued session operation. -/
inductive TrackOp
  | start
  | stop
deriving DecidableEq

/-- The session state before any operation: no stored handle, not tracking,
no platform subscription, platform identifiers starting at 1. -/
def initState (hasGeolocation : Bool) : MapViewState :=
  { watchId := none, isTracking := false,
    nav := { hasGeolocation := hasGeolocation, subs := [], nextId := 1 } }

/-- Run a sequence of start/stop operations from the initial state. -/
def runSession (hasGeolocation : Bool) (ops : List TrackOp) : MapViewState :=
  ops.foldl
    (fun s op =>
      match op with
      | TrackOp.start => (startAutoTracking s).1
      | TrackOp.stop => stopAutoTracking s)
    (initState hasGeolocation)

/-- One collected reading of `geolocationAPI.getMultipleReadings`
(src/api.js lines 396-401). -/
structure Reading where
  lat : ℚ
  lng : ℚ
  accuracy : ℚ
  timestamp : ℤ
deriving DecidableEq

/-- The resolved value of `getMultipleReadings` (src/api.js lines 420-426). -/
structure MultiResult where
  lat : ℚ
  lng : ℚ
  accuracy : ℚ
  readings : List Reading
  timestamp : ℤ
deriving DecidableEq

/-- The recursive `getReading` loop of `geolocationAPI.getMultipleReadings`
(src/api.js lines 393-440). Each list element of the oracle is the platform
outcome of one issued `getCurrentPosition` query, in order. On success the
reading is appended and the counter incremented; once `currentCount >= count`
the averages over the accumulated readings are resolved, otherwise the next
query is issued after the interval. On error the promise rejects with the
raw platform error unchanged. Result: (settled value if the promise settles
before the oracle is exhausted, number of queries issued). -/
def multiLoop (count : ℤ) (now : ℤ) :
    List (Except PositionError Reading) → List Reading → ℕ →
      Option (Except PositionError MultiResult) × ℕ
  | [], _, _ => (none, 0)
  | Except.error e :: _, _, _ => (some (Except.error e), 1)
  | Except.ok r :: rest, readings, currentCount =>
      let readings2 := readings ++ [r]
      let currentCount2 := currentCount + 1
      if (currentCount2 : ℤ) ≥ count then
        (some (Except.ok
          { lat := (readings2.foldl (fun sum t => sum + t.lat) 0) / (readings2.length : ℚ)
            lng := (readings2.foldl (fun sum t => sum + t.lng) 0) / (readings2.length : ℚ)
            accuracy :=
              (readings2.foldl (fun sum t => sum + t.accuracy) 0) / (readings2.length : ℚ)
            readings := readings2
            timestamp := now }), 1)
      else
        match multiLoop count now rest readings2 currentCount2 with
        | (res, n) => (res, n + 1)

/-- `geolocationAPI.getMultipleReadings(count = 3, interval = 2000)`
(src/api.js lines 388-444): starts the loop with an empty accumulator and a
zero counter. `interval` only schedules the next query and does not affect
the settled value, and `Date.now()` at resolution time is the explicit
`now`. -/
def getMultipleReadings (count : ℤ) (interval : ℤ) (now : ℤ)
    (oracle : List (Except PositionError Reading)) :
    Option (Except PositionError MultiResult) × ℕ :=
  let _ := interval
  multiLoop count now oracle [] 0

/-- A sample position with the given horizontal accuracy and no optional
fields, used to instantiate universally quantified theorems. -/
def fixture (a : ℚ) : Position :=
  { coords :=
      { latitude := 1, longitude := 2, accuracy := a, altitude := none,
        altitudeAccuracy := none, heading := none, speed := none }
    timestamp := 0 }

theorem accuracyLevel_chain (protocol : String) (position : Position) :
    (analyzeLocationAccuracy protocol position).accuracyLevel =
      (if position.coords.accuracy < 5 then "Excellent"
       else if position.coords.accuracy < 10 then "Very High"
       else if position.coords.accuracy < 20 then "High"
       else if position.coords.accuracy < 50 then "Medium"
       else if position.coords.accuracy < 100 then "Low"
       else "Very Low") := rfl

/-- C1: for every sample with nonnegative `accuracyMeters`, the tier chosen
by the source's cascaded strict-upper-bound chain (first match wins) is
exactly the tier the spec assigns by its exclusive-upper-bound ranges:
below 5 Excellent, below 10 Very High, below 20 High, below 50 Medium,
below 100 Low, otherwise Very Low. -/
theorem analyzeLocationAccuracy_tier_spec (protocol : String) (position : Position)
    (_h0 : 0 ≤ position.coords.accuracy) :
    (analyzeLocationAccuracy protocol position).accuracyLevel =
      specTierName position.coords.accuracy := by
  rw [accuracyLevel_chain, specTierName]
  rcases lt_or_le position.coords.accuracy 5 with h1 | h1
  · simp [h1]
  · rcases lt_or_le position.coords.accuracy 10 with h2 | h2
    · simp [not_lt.mpr h1, h1, h2]
    · rcases lt_or_le position.coords.accuracy 20 with h3 | h3
      · simp [not_lt.mpr h1, not_lt.mpr h2, h2, h3]
      · rcases lt_or_le position.coords.accuracy 50 with h4 | h4
        · simp [not_lt.mpr h1, not_lt.mpr h2, not_lt.mpr h3, h3, h4]
        · rcases lt_or_le position.coords.accuracy 100 with h5 | h5
          · simp [not_lt.mpr h1, not_lt.mpr h2, not_lt.mpr h3, not_lt.mpr h4, h4, h5]
          · simp [not_lt.mpr h1, not_lt.mpr h2, not_lt.mpr h3, not_lt.mpr h4, not_lt.mpr h5]

/-- C1 witness: the tier refinement evaluated at a concrete sample with
accuracy 3 (both sides being Excellent). -/
theorem analyzeLocationAccuracy_tier_spec_witness :
    (analyzeLocationAccuracy "https:" (fixture 3)).accuracyLevel =
      specTierName (fixture 3).coords.accuracy :=
  analyzeLocationAccuracy_tier_spec "https:" (fixture 3) (by norm_num [fixture])

/-- C2 counterexample: a sample with `accuracyMeters` exactly 10 is
classified "High" by the code, not "Very High" as the claim states. -/
theorem accuracyLevel_at_ten_cex :
    (analyzeLocationAccuracy "https:" (fixture 10)).accuracyLevel = "High" ∧
    (analyzeLocationAccuracy "https:" (fixture 10)).accuracyLevel ≠ "Very High" := by
  constructor
  · rfl
  · intro h
    exact absurd (rfl.symm.trans h) (by decide)

/-- C2 amended: for all nonnegative `accuracyMeters` the classifier returns
exactly one of the six tiers; the boundaries are exclusive upper bounds, so
the boundary value 10 falls in the next tier down: exactly 10 gives High,
not Very High. -/
theorem accuracyLevel_unique_tier (protocol : String) (position : Position)
    (_h0 : 0 ≤ position.coords.accuracy) :
    (analyzeLocationAccuracy protocol position).accuracyLevel ∈
      ["Excellent", "Very High", "High", "Medium", "Low", "Very Low"] ∧
    (position.coords.accuracy = 10 →
      (analyzeLocationAccuracy protocol position).accuracyLevel = "High") := by
  constructor
  · rw [accuracyLevel_chain]
    split_ifs <;> simp
  · intro h10
    rw [accuracyLevel_chain, h10]
    norm_num

/-- C2 witness: the amended claim evaluated at a concrete sample with
accuracy exactly 10: the tier is one of the six and equals High. -/
theorem accuracyLevel_unique_tier_witness :
    (analyzeLocationAccuracy "https:" (fixture 10)).accuracyLevel ∈
      ["Excellent", "Very High", "High", "Medium", "Low", "Very Low"] ∧
    (analyzeLocationAccuracy "https:" (fixture 10)).accuracyLevel = "High" :=
  ⟨(accuracyLevel_unique_tier "https:" (fixture 10) (by norm_num [fixture])).1,
   (accuracyLevel_unique_tier "https:" (fixture 10) (by norm_num [fixture])).2 rfl⟩

/-- C3 counterexample: with the capability present, a one-shot acquisition
failing with `PermissionDenied` (code 1) rejects with the code's message,
which is not the message the spec enumerates, and which also differs from
the message the watch error channel uses for the same kind. -/
theorem errorMessage_cex :
    requestLocationPermission true (Except.error ⟨1, "platform text"⟩) ≠
      Except.error "Location access denied. Please allow location access or enable location services." ∧
    requestErrorMessage 1 ≠ watchErrorMessage 1 := by
  constructor
  · intro h
    exact absurd h (by decide)
  · intro h
    exact absurd h (by decide)

/-- C3 amended: every acquisition failure is paired with exactly one fixed
user-readable message per error kind within each channel, independent of the
platform's own message text — the eight fixed pairings are the ones listed
here — but the pairing is per channel, not identical across channels: for
each of the four kinds the one-shot and the watch texts differ, and the
one-shot PermissionDenied text is not the message the spec enumerates for
that kind (whereas the listed one-shot Timeout and Unknown texts coincide
with the enumerated ones). -/
theorem errorMessages_per_channel :
    (∀ m : String, requestLocationPermission true (Except.error ⟨1, m⟩) =
      Except.error "Location access denied. Please click \x27Allow\x27 when prompted, or enable location services in your browser settings.") ∧
    (∀ m : String, requestLocationPermission true (Except.error ⟨2, m⟩) =
      Except.error "Location information is unavailable. Please check your GPS settings and ensure location services are enabled.") ∧
    (∀ m : String, requestLocationPermission true (Except.error ⟨3, m⟩) =
      Except.error "Location request timed out. Please try again.") ∧
    (∀ m : String, requestLocationPermission true (Except.error ⟨4, m⟩) =
      Except.error "An unknown error occurred while retrieving location.") ∧
    (∀ m : String, watchCallbackOutput (WatchEvent.failure ⟨1, m⟩) =
      Except.error "Location access denied. Please enable location services.") ∧
    (∀ m : String, watchCallbackOutput (WatchEvent.failure ⟨2, m⟩) =
      Except.error "Location information is unavailable. Please check your GPS settings.") ∧
    (∀ m : String, watchCallbackOutput (WatchEvent.failure ⟨3, m⟩) =
      Except.error "Location request timed out.") ∧
    (∀ m : String, watchCallbackOutput (WatchEvent.failure ⟨4, m⟩) =
      Except.error "An unknown error occurred while tracking location.") ∧
    requestErrorMessage 1 ≠ watchErrorMessage 1 ∧
    requestErrorMessage 2 ≠ watchErrorMessage 2 ∧
    requestErrorMessage 3 ≠ watchErrorMessage 3 ∧
    requestErrorMessage 4 ≠ watchErrorMessage 4 ∧
    requestErrorMessage 1 ≠
      "Location access denied. Please allow location access or enable location services." :=
  ⟨fun _ => rfl, fun _ => rfl, fun _ => rfl, fun _ => rfl,
   fun _ => rfl, fun _ => rfl, fun _ => rfl, fun _ => rfl,
   by decide, by decide, by decide, by decide, by decide⟩

/-- C9: the classifier is deterministic and reads nothing outside its
arguments: its output is fully determined by the ambient protocol and the
five coordinate fields it consumes (accuracy, altitude, altitude accuracy,
speed, heading); in particular latitude, longitude and the capture timestamp
do not influence it, identical inputs give identical assessments, and the
embedding as a pure function records that no call mutates outside state. -/
theorem analyzeLocationAccuracy_pure (protocol protocol2 : String) (p q : Position)
    (hprot : protocol = protocol2)
    (hacc : p.coords.accuracy = q.coords.accuracy)
    (halt : p.coords.altitude = q.coords.altitude)
    (haa : p.coords.altitudeAccuracy = q.coords.altitudeAccuracy)
    (hsp : p.coords.speed = q.coords.speed)
    (hhd : p.coords.heading = q.coords.heading) :
    analyzeLocationAccuracy protocol p = analyzeLocationAccuracy protocol2 q := by
  subst hprot
  unfold analyzeLocationAccuracy
  rw [hacc, halt, haa, hsp, hhd]

/-- C9 witness: two positions agreeing on the consumed fields but differing
in latitude, longitude and timestamp yield the same assessment. -/
theorem analyzeLocationAccuracy_pure_witness :
    analyzeLocationAccuracy "https:" ⟨⟨1, 2, 8, none, none, none, none⟩, 0⟩ =
      analyzeLocationAccuracy "https:" ⟨⟨3, 4, 8, none, none, none, none⟩, 5⟩ :=
  analyzeLocationAccuracy_pure "https:" "https:" _ _ rfl rfl rfl rfl rfl rfl

theorem foldl_add_eq (f : Reading → ℚ) (l : List Reading) (c : ℚ) :
    l.foldl (fun sum t => sum + f t) c = c + (l.map f).sum := by
  induction l generalizing c with
  | nil => simp
  | cons r tl ih => simp [List.foldl_cons, ih, List.sum_cons]; ring

theorem multiLoop_success (count now : ℤ) :
    ∀ (samples acc : List Reading) (rest : List (Except PositionError Reading)),
      samples ≠ [] → ((acc.length : ℤ) + samples.length = count) →
      multiLoop count now (samples.map Except.ok ++ rest) acc acc.length =
        (some (Except.ok
          { lat := ((acc ++ samples).map Reading.lat).sum / ((acc ++ samples).length : ℚ)
            lng := ((acc ++ samples).map Reading.lng).sum / ((acc ++ samples).length : ℚ)
            accuracy :=
              ((acc ++ samples).map Reading.accuracy).sum / ((acc ++ samples).length : ℚ)
            readings := acc ++ samples
            timestamp := now }), samples.length) := by
  intro samples
  induction samples with
  | nil => intro acc rest hne _; exact absurd rfl hne
  | cons r tl ih =>
    intro acc rest _ hlen
    rcases eq_or_ne tl [] with htl | htl
    · subst htl
      have hcond : ((acc.length + 1 : ℕ) : ℤ) ≥ count := by
        push_cast
        simp at hlen
        omega
      simp only [List.map_cons, List.map_nil, List.nil_append, List.cons_append, multiLoop]
      rw [if_pos hcond]
      simp [foldl_add_eq]
    · have hlt : ¬ (((acc.length + 1 : ℕ) : ℤ) ≥ count) := by
        have : 1 ≤ tl.length := List.length_pos.mpr htl
        push_cast
        simp at hlen
        omega
      simp only [List.map_cons, List.cons_append, multiLoop, List.append_eq]
      rw [if_neg hlt]
      have harg : acc.length + 1 = (acc ++ [r]).length := by simp
      rw [harg]
      rw [ih (acc ++ [r]) rest htl (by simp at hlen ⊢; omega)]
      simp [List.append_assoc]

/-- C4: a run of `getMultipleReadings` whose first `count` issued queries
(with `count` at least one, covering the default `count = 3`,
`interval = 2000`) all succeed resolves with the arithmetic mean of
latitude, longitude and accuracy over the collected samples, carries the
full collected sequence in collection order in its `readings`, and issues
exactly `count` queries. -/
theorem getMultipleReadings_success (count interval now : ℤ)
    (samples : List Reading) (rest : List (Except PositionError Reading))
    (hne : samples ≠ []) (hlen : (samples.length : ℤ) = count) :
    getMultipleReadings count interval now (samples.map Except.ok ++ rest) =
      (some (Except.ok
        { lat := (samples.map Reading.lat).sum / (samples.length : ℚ)
          lng := (samples.map Reading.lng).sum / (samples.length : ℚ)
          accuracy := (samples.map Reading.accuracy).sum / (samples.length : ℚ)
          readings := samples
          timestamp := now }), samples.length) := by
  have h := multiLoop_success count now samples [] rest hne (by simpa using hlen)
  simpa [getMultipleReadings] using h

/-- C4 witness: the spec's three-sample fixture with the default parameters:
the averages are exactly (10, 20, 6) and all three samples are returned. -/
theorem getMultipleReadings_success_witness :
    getMultipleReadings 3 2000 99
        ([⟨10, 20, 5, 0⟩, ⟨10.001, 20.001, 7, 1⟩, ⟨9.999, 19.999, 6, 2⟩].map Except.ok ++ []) =
      (some (Except.ok
        { lat := 10, lng := 20, accuracy := 6
          readings := [⟨10, 20, 5, 0⟩, ⟨10.001, 20.001, 7, 1⟩, ⟨9.999, 19.999, 6, 2⟩]
          timestamp := 99 }), 3) := by
  have h := getMultipleReadings_success 3 2000 99
    [⟨10, 20, 5, 0⟩, ⟨10.001, 20.001, 7, 1⟩, ⟨9.999, 19.999, 6, 2⟩] []
    (by simp) (by norm_num)
  rw [h]
  norm_num

theorem multiLoop_failure (count now : ℤ) (e : PositionError)
    (rest : List (Except PositionError Reading)) :
    ∀ (goods acc : List Reading),
      ((acc.length : ℤ) + goods.length < count) →
      multiLoop count now (goods.map Except.ok ++ (Except.error e :: rest)) acc acc.length =
        (some (Except.error e), goods.length + 1) := by
  intro goods
  induction goods with
  | nil => intro acc _; simp [multiLoop]
  | cons g tl ih =>
    intro acc hlen
    have hlt : ¬ (((acc.length + 1 : ℕ) : ℤ) ≥ count) := by
      push_cast
      simp at hlen
      omega
    simp only [List.map_cons, List.cons_append, multiLoop, List.append_eq]
    rw [if_neg hlt]
    have harg : acc.length + 1 = (acc ++ [g]).length := by simp
    rw [harg]
    rw [ih (acc ++ [g]) (by simp at hlen ⊢; omega)]
    simp

/-- C5: if one of the issued queries fails while fewer than `count` samples
have been collected, the whole operation rejects with that same platform
failure unchanged, issues no query beyond the failed one (the query count is
the number of successes so far plus one, whatever outcomes would have
followed), and produces no partial average. -/
theorem getMultipleReadings_aborts_on_failure (count interval now : ℤ)
    (goods : List Reading) (e : PositionError)
    (rest : List (Except PositionError Reading))
    (h : (goods.length : ℤ) < count) :
    getMultipleReadings count interval now
        (goods.map Except.ok ++ (Except.error e :: rest)) =
      (some (Except.error e), goods.length + 1) := by
  have hh := multiLoop_failure count now e rest goods [] (by simpa using h)
  simpa [getMultipleReadings] using hh

/-- C5 witness: with `count = 3`, the second query failing with `Timeout`
(code 3) rejects with that error after exactly two queries, even though a
third successful outcome was available. -/
theorem getMultipleReadings_aborts_on_failure_witness :
    getMultipleReadings 3 2000 99
        ([⟨10, 20, 5, 0⟩].map Except.ok ++
          (Except.error ⟨3, "platform timeout"⟩ :: [Except.ok ⟨9.999, 19.999, 6, 2⟩])) =
      (some (Except.error ⟨3, "platform timeout"⟩), 2) := by
  have h := getMultipleReadings_aborts_on_failure 3 2000 99 [⟨10, 20, 5, 0⟩]
    ⟨3, "platform timeout"⟩ [Except.ok ⟨9.999, 19.999, 6, 2⟩] (by norm_num)
  simpa using h

/-- C10: for every `count` at most zero, the loop still issues its first
query unconditionally; if that query succeeds, the completion check
`currentCount >= count` passes on the first success, so the promise resolves
with that single sample as the average and as the entire one-element
`readings` sequence, after exactly one query. -/
theorem getMultipleReadings_nonpositive_count (count interval now : ℤ) (r : Reading)
    (rest : List (Except PositionError Reading)) (h : count ≤ 0) :
    getMultipleReadings count interval now (Except.ok r :: rest) =
      (some (Except.ok
        { lat := r.lat, lng := r.lng, accuracy := r.accuracy,
          readings := [r], timestamp := now }), 1) := by
  have hcond : (((0 : ℕ) + 1 : ℕ) : ℤ) ≥ count := by push_cast; omega
  simp only [getMultipleReadings, multiLoop]
  rw [if_pos hcond]
  norm_num

/-- C10 witness: `count = 0` with a succeeding first query resolves with
that single reading after one query. -/
theorem getMultipleReadings_nonpositive_count_witness :
    getMultipleReadings 0 2000 99 (Except.ok ⟨10, 20, 5, 0⟩ :: []) =
      (some (Except.ok
        { lat := 10, lng := 20, accuracy := 5,
          readings := [⟨10, 20, 5, 0⟩], timestamp := 99 }), 1) :=
  getMultipleReadings_nonpositive_count 0 2000 99 ⟨10, 20, 5, 0⟩ [] (by norm_num)


/-- C6 counterexample: a local loopback origin served over plain HTTP is a
secure transport in the spec's sense (and `checkGeolocationSupport` accepts
it), yet the classifier still appends both the HTTP warning and the HTTP
recommendation, because it tests only the protocol. -/
theorem insecure_loopback_cex :
    isSecureTransport "http:" "localhost" = true ∧
    checkGeolocationSupport true "http:" "localhost" = Except.ok () ∧
    "Not using HTTPS. Some browsers limit geolocation accuracy on HTTP." ∈
      (analyzeLocationAccuracy "http:" (fixture 8)).warnings ∧
    "Use HTTPS for maximum geolocation accuracy." ∈
      (analyzeLocationAccuracy "http:" (fixture 8)).recommendations := by
  refine ⟨rfl, ?_, ?_, ?_⟩ <;> decide

/-- C6 amended: the classifier appends the transport warning and the
transport recommendation exactly when the page protocol is not `https:`;
loopback origins receive no exemption here (only `checkGeolocationSupport`
exempts localhost), so a sample evaluated on `http:` carries both messages
even on loopback, and a sample evaluated on `https:` carries neither. -/
theorem https_messages_iff (protocol : String) (position : Position) :
    ("Not using HTTPS. Some browsers limit geolocation accuracy on HTTP." ∈
        (analyzeLocationAccuracy protocol position).warnings ↔ protocol ≠ "https:") ∧
    ("Use HTTPS for maximum geolocation accuracy." ∈
        (analyzeLocationAccuracy protocol position).recommendations ↔ protocol ≠ "https:") := by
  obtain ⟨⟨la, lo, a, alt, altAcc, hd, sp⟩, ts⟩ := position
  simp only [analyzeLocationAccuracy]
  rcases alt with _ | av <;> rcases altAcc with _ | aav <;>
    constructor <;> split_ifs <;> simp_all

/-- The per-session invariant tying the stored handle to the platform
state: identifiers are positive, an Idle session has no live subscription,
an Active session has exactly the one subscription its stored handle names. -/
def SessionInv (s : MapViewState) : Prop :=
  1 ≤ s.nav.nextId ∧
  match s.watchId with
  | none => s.nav.subs = []
  | some i => 1 ≤ i ∧ s.nav.subs = [i]

theorem sessionInv_init (hasGeolocation : Bool) : SessionInv (initState hasGeolocation) := by
  constructor <;> simp [initState]

theorem sessionInv_start (s : MapViewState) (h : SessionInv s) :
    SessionInv (startAutoTracking s).1 := by
  obtain ⟨wid, tr, geo, subs, nid⟩ := s
  obtain ⟨hnid, hw⟩ := h
  simp only at hw hnid
  rcases wid with _ | i
  · cases geo
    · have hstate :
          (startAutoTracking ⟨none, tr, ⟨false, subs, nid⟩⟩).1 =
            ⟨none, true, ⟨false, subs, nid⟩⟩ := rfl
      rw [hstate]
      exact ⟨hnid, hw⟩
    · have hstate :
          (startAutoTracking ⟨none, tr, ⟨true, subs, nid⟩⟩).1 =
            ⟨some nid, true, ⟨true, nid :: subs, nid + 1⟩⟩ := rfl
      rw [hstate]
      refine ⟨by simp only; omega, hnid, ?_⟩
      simp only [hw]
  · obtain ⟨hi, hsubs⟩ := hw
    have htr : jsTruthy (some i) = true := by
      simp only [jsTruthy, decide_eq_true_eq]
      omega
    have hstate :
        (startAutoTracking ⟨some i, tr, ⟨geo, subs, nid⟩⟩).1 =
          ⟨some i, tr, ⟨geo, subs, nid⟩⟩ := by
      simp [startAutoTracking, htr]
    rw [hstate]
    exact ⟨hnid, hi, hsubs⟩

theorem sessionInv_stop (s : MapViewState) (h : SessionInv s) :
    SessionInv (stopAutoTracking s) := by
  obtain ⟨wid, tr, geo, subs, nid⟩ := s
  obtain ⟨hnid, hw⟩ := h
  simp only at hw hnid
  rcases wid with _ | i
  · have hstate :
        stopAutoTracking ⟨none, tr, ⟨geo, subs, nid⟩⟩ =
          ⟨none, tr, ⟨geo, subs, nid⟩⟩ := rfl
    rw [hstate]
    exact ⟨hnid, hw⟩
  · obtain ⟨hi, hsubs⟩ := hw
    have htr : jsTruthy (some i) = true := by
      simp only [jsTruthy, decide_eq_true_eq]
      omega
    have hstate :
        stopAutoTracking ⟨some i, tr, ⟨geo, subs, nid⟩⟩ =
          ⟨none, false, ⟨geo, clearWatch (some i) subs, nid⟩⟩ := by
      simp [stopAutoTracking, htr]
    rw [hstate]
    refine ⟨hnid, ?_⟩
    have hclear : clearWatch (some i) [i] = [] := by
      have hi0 : ¬ i = 0 := by omega
      simp [clearWatch, jsTruthy, hi0]
    simp only [hsubs, hclear]

theorem runSession_inv (hasGeolocation : Bool) (ops : List TrackOp) :
    SessionInv (runSession hasGeolocation ops) := by
  rw [runSession]
  have main : ∀ (l : List TrackOp) (s : MapViewState), SessionInv s →
      SessionInv (l.foldl
        (fun s op =>
          match op with
          | TrackOp.start => (startAutoTracking s).1
          | TrackOp.stop => stopAutoTracking s) s) := by
    intro l
    induction l with
    | nil => intro s hs; simpa using hs
    | cons op tl ih =>
      intro s hs
      cases op
      · exact ih _ (sessionInv_start s hs)
      · exact ih _ (sessionInv_stop s hs)
  exact main ops _ (sessionInv_init hasGeolocation)

theorem stopAutoTracking_idem (s : MapViewState) :
    stopAutoTracking (stopAutoTracking s) = stopAutoTracking s := by
  obtain ⟨wid, tr, nav⟩ := s
  rcases wid with _ | i
  · simp [stopAutoTracking, jsTruthy]
  · by_cases hi : i = 0
    · subst hi
      simp [stopAutoTracking, jsTruthy]
    · simp [stopAutoTracking, jsTruthy, hi]

/-- C7 counterexample: in the Active state reached by one successful start,
the stored handle is `some 1`, but a second start call returns the arrow
function's `undefined` (here `none`), not the existing handle, so the
claim's "start returns the existing handle" is false of the code. -/
theorem startAutoTracking_return_cex :
    (runSession true [TrackOp.start]).watchId = some 1 ∧
    (startAutoTracking (runSession true [TrackOp.start])).2 = none ∧
    (startAutoTracking (runSession true [TrackOp.start])).2 ≠
      (runSession true [TrackOp.start]).watchId := by
  refine ⟨rfl, rfl, ?_⟩
  intro h
  exact absurd h (by decide)

/-- C7 amended: at every state reachable by start/stop sequences the session
owns at most one live platform subscription; start while Active returns
without touching any state (it creates no second subscription, leaving the
existing handle stored, though its return value is `undefined` rather than
that handle); stop is idempotent and stop on the initial Idle state is a
no-op that does not throw. -/
theorem trackingSession_single_subscription (hasGeolocation : Bool) (ops : List TrackOp) :
    (runSession hasGeolocation ops).nav.subs.length ≤ 1 ∧
    (jsTruthy (runSession hasGeolocation ops).watchId = true →
      (startAutoTracking (runSession hasGeolocation ops)).1 = runSession hasGeolocation ops) ∧
    stopAutoTracking (stopAutoTracking (runSession hasGeolocation ops)) =
      stopAutoTracking (runSession hasGeolocation ops) ∧
    stopAutoTracking (initState hasGeolocation) = initState hasGeolocation := by
  refine ⟨?_, ?_, stopAutoTracking_idem _, ?_⟩
  · obtain ⟨-, hw⟩ := runSession_inv hasGeolocation ops
    rcases hsw : (runSession hasGeolocation ops).watchId with _ | i <;> rw [hsw] at hw
    · simp [hw]
    · simp [hw.2]
  · intro htruthy
    simp [startAutoTracking, htruthy]
  · simp [stopAutoTracking, jsTruthy, initState]

/-- C7 witness: after one successful start the platform holds at most one
subscription, and a second start leaves the state unchanged. -/
theorem trackingSession_single_subscription_witness :
    (runSession true [TrackOp.start]).nav.subs.length ≤ 1 ∧
    (startAutoTracking (runSession true [TrackOp.start])).1 = runSession true [TrackOp.start] :=
  ⟨(trackingSession_single_subscription true [TrackOp.start]).1,
   (trackingSession_single_subscription true [TrackOp.start]).2.1 (by decide)⟩

/-- C8: the watch interface never throws synchronously on its expected
failure modes (every modelled path is a total function): registering a
watch with the positioning capability absent returns `null`, registers
nothing, and invokes the error callback exactly once; clearing a `null`
handle performs no platform cancellation; and clearing a handle that no
longer names a live subscription cancels nothing (the platform ignores
unknown identifiers), so `clearWatch` is idempotent. -/
theorem watch_interface_no_throw (nav : Navigator) (watchId : ℕ) (subs : List ℕ)
    (hno : nav.hasGeolocation = false) (hcancelled : watchId ∉ subs) :
    (watchPosition nav).2.1 = none ∧
    (watchPosition nav).2.2.length = 1 ∧
    (watchPosition nav).1 = nav ∧
    clearWatch none subs = subs ∧
    clearWatch (some watchId) subs = subs := by
  refine ⟨?_, ?_, ?_, rfl, ?_⟩
  · simp [watchPosition, hno]
  · simp [watchPosition, hno]
  · simp [watchPosition, hno]
  · by_cases h0 : watchId = 0
    · subst h0
      simp [clearWatch, jsTruthy]
    · have htr : jsTruthy (some watchId) = true := by
        simp only [jsTruthy, decide_eq_true_eq]
        exact h0
      unfold clearWatch
      rw [if_pos htr, List.filter_eq_self]
      intro j hj
      simp only [decide_eq_true_eq, ne_eq, Option.some.injEq]
      intro heq
      exact hcancelled (heq ▸ hj)

/-- C8 witness: a capability-free platform and a stale handle evaluated
concretely. -/
theorem watch_interface_no_throw_witness :
    (watchPosition ⟨false, [], 1⟩).2.1 = none ∧
    (watchPosition ⟨false, [], 1⟩).2.2.length = 1 ∧
    (watchPosition ⟨false, [], 1⟩).1 = ⟨false, [], 1⟩ ∧
    clearWatch none [3] = [3] ∧
    clearWatch (some 5) [3] = [3] :=
  watch_interface_no_throw ⟨false, [], 1⟩ 5 [3] rfl (by decide)
